import Mathlib

/-!
Verification of the Dual-Channel Real-Time Synchronization Engine of the
AI-Avatar interview frontend.

The definitions below are a shallow embedding of the JavaScript source:

* `addAgentMessageToChat`, `addUserMessageToChat` — the transcript reconciler
  from `src/components/layout/InterviewView.jsx` (lines 347-390 and 648-716);
* `heygenForwardStep`, `applySendOutcome` — the incremental HeyGen speech
  forwarding block of `addAgentMessageToChat` (lines 718-753);
* `isAgentIdentity`, `updateAudioActive` — the LiveKit audio-track liveness
  flag handlers (lines 109-113 and 153-233);
* `webRTCClose`, `closeActions`, `fireIceCandidate` — `WebRTCManager`
  (`src/unnamed/part_008`);
* `closeSession`, `sendTask`, `talkToAI`, `createSessionState` —
  `SessionManager` (`src/managers/SessionManager.js`);
* `recognitionOnEnd`, `fireScheduledRestart`, `recognitionOnError` — the
  speech-recognition hook (`src/unnamed/part_001`, lines 97-145).

JavaScript strings are modelled by Lean `String` (a list of characters in
this toolchain); `trim`, `startsWith`, `substring`, `length`, `toLowerCase`
and `includes` are implemented structurally on the character list so that
all predicates compute.
-/

namespace AvatarSync

/-- Characters removed by the JavaScript string trim used in the source
(space, tab, newline, carriage return cover every string the code builds). -/
def jsWhitespace (c : Char) : Bool :=
  c == ' ' || c == '\t' || c == '\n' || c == '\r'

/-- JavaScript `String.prototype.trim`: drop whitespace from both ends. -/
def jsTrim (s : String) : String :=
  String.mk (((s.data.dropWhile jsWhitespace).reverse.dropWhile jsWhitespace).reverse)

/-- JavaScript `s.startsWith(p)`. -/
def strStartsWith (s p : String) : Bool :=
  p.data.isPrefixOf s.data

/-- JavaScript `s.length`. -/
def strLength (s : String) : Nat :=
  s.data.length

/-- JavaScript `s.substring(0, n)`. -/
def strTake (s : String) (n : Nat) : String :=
  String.mk (s.data.take n)

/-- JavaScript `s.substring(n)`. -/
def strDrop (s : String) (n : Nat) : String :=
  String.mk (s.data.drop n)

/-- ASCII lower-casing of one character, as `toLowerCase` acts on the
identity tags compared by the source. -/
def toLowerChar (c : Char) : Char :=
  if 65 ≤ c.toNat && c.toNat ≤ 90 then Char.ofNat (c.toNat + 32) else c

/-- JavaScript `s.toLowerCase()` on the ASCII identities used by the code. -/
def strToLower (s : String) : String :=
  String.mk (s.data.map toLowerChar)

/-- Containment of `needle` as a contiguous sublist of `hay`. -/
def containsSub (hay needle : List Char) : Bool :=
  needle.isPrefixOf hay ||
    (match hay with
     | [] => false
     | _ :: t => containsSub t needle)

/-- JavaScript `s.includes(sub)`. -/
def jsIncludes (s sub : String) : Bool :=
  containsSub s.data sub.data

/-- One entry of the reconciled chat log
(`InterviewView.jsx`; the display-only `timestamp` string is omitted,
`timestampMs` is the numeric timestamp the logic reads). -/
structure ChatMessage where
  id : String
  text : String
  sender : String
  timestampMs : Nat
  participantId : String
deriving Repr, DecidableEq

/-- Construction of one chat-log entry. -/
def mkMessage (msgId text sender : String) (timestamp : Nat) (participantId : String) :
    ChatMessage :=
  { id := msgId, text := text, sender := sender, timestampMs := timestamp,
    participantId := participantId }

/-- The id-disambiguation while-loop of the source
(while the candidate id clashes with the log, a numeric counter suffix is
appended), run with enough fuel to exhaust every id already in the log. -/
def uniqueIdGo (prev : List ChatMessage) : Nat → String → Nat → String
  | 0, candidate, _ => candidate
  | fuel + 1, candidate, counter =>
    if prev.any (fun msg => msg.id == candidate) then
      uniqueIdGo prev fuel (candidate ++ "-" ++ toString counter) (counter + 1)
    else candidate

/-- Fresh message id collision-checked against the existing log
(`InterviewView.jsx` lines 370-375 and 698-703); the random hash produced by
`generateMessageId` is taken as the input `freshId`. -/
def generateUniqueId (prev : List ChatMessage) (freshId : String) : String :=
  uniqueIdGo prev (prev.length + 1) freshId 0

/-- `addUserMessageToChat` (`layout/InterviewView.jsx` lines 347-390):
ignore blank text, drop a (text, sender, participant) duplicate within a
2000 ms window, otherwise append a freshly identified user message. -/
def addUserMessageToChat (prev : List ChatMessage) (messageText participantId : String)
    (timestamp : Nat) (freshId : String) : List ChatMessage :=
  if jsTrim messageText = "" then prev
  else
    let trimmedText := jsTrim messageText
    if prev.any (fun msg =>
        msg.text == trimmedText && msg.sender == "user" &&
        msg.participantId == participantId &&
        decide (((timestamp : Int) - (msg.timestampMs : Int)).natAbs < 2000)) then prev
    else
      prev ++ [mkMessage (generateUniqueId prev freshId) trimmedText "user" timestamp
        participantId]

/-- The append path of `addAgentMessageToChat`
(`layout/InterviewView.jsx` lines 683-715): drop the fragment when an agent
message with identical text already exists anywhere in the log, otherwise
append a freshly identified agent message. -/
def appendNewAgentMessage (prev : List ChatMessage) (trimmedText participantIdentity : String)
    (timestamp : Nat) (freshId : String) : List ChatMessage :=
  if prev.any (fun msg => msg.text == trimmedText && msg.sender == "agent") then prev
  else
    prev ++ [mkMessage (generateUniqueId prev freshId) trimmedText "agent" timestamp
      participantIdentity]

/-- The log transformation of `addAgentMessageToChat`
(`layout/InterviewView.jsx` lines 648-716): blank text is ignored; when the
last message of the log is from the agent and the fragment extends it (or the
caller marked an update), that message is updated in place keeping its id;
otherwise the fragment is appended unless it duplicates an existing agent
message. -/
def addAgentMessageToChat (prev : List ChatMessage) (messageText participantIdentity : String)
    (isUpdate : Bool) (timestamp : Nat) (freshId : String) : List ChatMessage :=
  if jsTrim messageText = "" then prev
  else
    let trimmedText := jsTrim messageText
    match prev.getLast? with
    | some lastMessage =>
      if lastMessage.sender = "agent" then
        let lastText := jsTrim lastMessage.text
        let isContinuation := strStartsWith trimmedText lastText ||
          (decide (0 < strLength lastText) &&
           decide (strLength lastText < strLength trimmedText) &&
           (strTake trimmedText (strLength lastText) == lastText))
        if isContinuation || isUpdate then
          prev.dropLast ++ [{ lastMessage with text := trimmedText, timestampMs := timestamp }]
        else appendNewAgentMessage prev trimmedText participantIdentity timestamp freshId
      else appendNewAgentMessage prev trimmedText participantIdentity timestamp freshId
    | none => appendNewAgentMessage prev trimmedText participantIdentity timestamp freshId

/-- Result of one run of the HeyGen forwarding block: the text handed to
`heygenService.sendTask` (if any) and the value of `lastSentToHeyGenRef`
after the synchronous part of the block. -/
structure ForwardResult where
  sent : Option String
  cursor : String
deriving Repr, DecidableEq

/-- The HeyGen forwarding block of `addAgentMessageToChat`
(`layout/InterviewView.jsx` lines 718-753): gated on a session id and on the
LiveKit audio-active flag; equal text sends nothing; text extending the
cursor sends the trimmed new portion; otherwise the full trimmed text is
sent; whenever a send happens the cursor becomes the full trimmed text. -/
def heygenForwardStep (hasSession audioActive : Bool) (lastSent messageText : String) :
    ForwardResult :=
  let trimmedText := jsTrim messageText
  if hasSession && !(trimmedText == lastSent) && audioActive then
    if !(lastSent == "") && strStartsWith trimmedText lastSent then
      let textToSend := jsTrim (strDrop trimmedText (strLength lastSent))
      if textToSend = "" then { sent := none, cursor := lastSent }
      else { sent := some textToSend, cursor := trimmedText }
    else { sent := some trimmedText, cursor := trimmedText }
  else { sent := none, cursor := lastSent }

/-- Cursor value after the asynchronous outcome of `heygenService.sendTask`
(`layout/InterviewView.jsx` lines 740-750): on failure the catch handler
resets `lastSentToHeyGenRef` to the empty string; on success the cursor set
before the call is kept; with no send the cursor is untouched. -/
def applySendOutcome (r : ForwardResult) (sendSucceeds : Bool) : String :=
  match r.sent with
  | none => r.cursor
  | some _ => if sendSucceeds then r.cursor else ""

/-- Agent-identity detection (`layout/InterviewView.jsx` lines 110-113):
the lower-cased identity contains one of the known agent tags. -/
def isAgentIdentity (identity : String) : Bool :=
  ["agent", "bot", "dakota", "sage-1986"].any fun tag =>
    jsIncludes (strToLower identity) tag

/-- Track events observed by the audio-liveness handlers
(`layout/InterviewView.jsx` lines 153-233). The `ended` event is fired by
the handler the code registers only on agent audio tracks. -/
inductive TrackEvent where
  | subscribed (kind identity : String)
  | ended
  | unsubscribed (kind identity : String)
deriving Repr, DecidableEq

/-- Evolution of `liveKitAudioActiveRef` under a track event: set on
subscription of an agent audio track (the audio element exists from mount),
cleared when that track ends or an agent audio track is unsubscribed. -/
def updateAudioActive (active : Bool) : TrackEvent → Bool
  | TrackEvent.subscribed kind identity =>
      if kind == "audio" && isAgentIdentity identity then true else active
  | TrackEvent.ended => false
  | TrackEvent.unsubscribed kind identity =>
      if kind == "audio" && isAgentIdentity identity then false else active

/-- The peer-connection handle as `WebRTCManager` observes it: whether an
`onicecandidate` callback is currently registered. -/
structure PeerConnectionHandle where
  candidateCallbackSet : Bool
deriving Repr, DecidableEq

/-- State of a `WebRTCManager` instance (`src/unnamed/part_008`). -/
structure WebRTCManagerState where
  iceGatheringTimeout : Option Nat
  peerConnection : Option PeerConnectionHandle
deriving Repr, DecidableEq

/-- `WebRTCManager.close` (`src/unnamed/part_008` lines 87-97): clear the
gathering timeout if set; if a peer connection exists, null its candidate
callback, close it and drop the reference. -/
def webRTCClose (s : WebRTCManagerState) : WebRTCManagerState :=
  let s1 := if s.iceGatheringTimeout.isSome then { s with iceGatheringTimeout := none } else s
  if s1.peerConnection.isSome then { s1 with peerConnection := none } else s1

/-- The primitive actions `WebRTCManager.close` performs, in order. -/
inductive CloseAction where
  | clearTimeout
  | nullCandidateCallback
  | closeConnection
  | dropConnection
deriving Repr, DecidableEq

/-- Ordered action trace of `WebRTCManager.close`: the candidate callback is
nulled before the connection is closed. -/
def closeActions (s : WebRTCManagerState) : List CloseAction :=
  (if s.iceGatheringTimeout.isSome then [CloseAction.clearTimeout] else []) ++
  (if s.peerConnection.isSome then
     [CloseAction.nullCandidateCallback, CloseAction.closeConnection,
      CloseAction.dropConnection]
   else [])

/-- An `onicecandidate` event against the manager: the callback is invoked
exactly when a connection with a registered callback exists and the event
carries a candidate; the manager state is never mutated by it
(`src/unnamed/part_008` lines 59-63). The returned Bool reports whether the
callback ran. -/
def fireIceCandidate (s : WebRTCManagerState) (candidatePresent : Bool) :
    WebRTCManagerState × Bool :=
  match s.peerConnection with
  | none => (s, false)
  | some pc => (s, pc.candidateCallbackSet && candidatePresent)

/-- State of a `SessionManager` (`src/managers/SessionManager.js`); the
session info is identified by its `session_id`. -/
structure SessionManagerState where
  sessionInfo : Option String
  webRTCManager : Option WebRTCManagerState
  isConnected : Bool
deriving Repr, DecidableEq

/-- `SessionManager.closeSession` (lines 117-128): a no-op without a session
or manager, otherwise every field is cleared. -/
def closeSession (s : SessionManagerState) : SessionManagerState :=
  if s.sessionInfo.isNone || s.webRTCManager.isNone then s
  else { sessionInfo := none, webRTCManager := none, isConnected := false }

/-- `SessionManager.sendTask` (lines 90-95): throws
"Please create a connection first" without session info, otherwise forwards
(session_id, text) to `heygenService.sendTask`. -/
def sendTask (s : SessionManagerState) (text : String) : Except String (String × String) :=
  match s.sessionInfo with
  | none => Except.error "Please create a connection first"
  | some sessionId => Except.ok (sessionId, text)

/-- `SessionManager.talkToAI` (lines 102-111) with the AI completion passed
in: same precondition as `sendTask`; an empty completion raises
"Failed to get a response from AI". -/
def talkToAI (s : SessionManagerState) (aiText : String) : Except String (String × String) :=
  match s.sessionInfo with
  | none => Except.error "Please create a connection first"
  | some sessionId =>
    if aiText = "" then Except.error "Failed to get a response from AI"
    else Except.ok (sessionId, aiText)

/-- Manager state right after `SessionManager.createSession` resolves
(lines 23-39): session info and a fresh WebRTC manager are stored and
`isConnected` is reset to false; `startSession` has not yet run. -/
def createSessionState (sessionId : String) (w : WebRTCManagerState) : SessionManagerState :=
  { sessionInfo := some sessionId, webRTCManager := some w, isConnected := false }

/-- State of the voice-capture hook (`src/unnamed/part_001`): the
`isListening` flag, the `autoStartRef` auto-restart switch, the pending
restart timeout with its delay, and the last surfaced error. -/
structure CaptureState where
  listening : Bool
  autoRestart : Bool
  restartDelay : Option Nat
  lastError : Option String
deriving Repr, DecidableEq

/-- `recognition.onend` (`src/unnamed/part_001` lines 97-123): with
auto-restart enabled, schedule a restart after the fixed 300 ms backoff and
keep `listening` as it is; otherwise drop to not listening. -/
def recognitionOnEnd (s : CaptureState) : CaptureState :=
  if s.autoRestart then { s with restartDelay := some 300 }
  else { s with listening := false }

/-- The scheduled restart timeout firing (lines 104-117): nothing happens
without a pending timeout; otherwise `recognition.start()` is invoked (the
returned Bool), and on failure `listening` is forced off and auto-restart is
disabled. -/
def fireScheduledRestart (s : CaptureState) (startSucceeds : Bool) : CaptureState × Bool :=
  match s.restartDelay with
  | none => (s, false)
  | some _ =>
    if startSucceeds then ({ s with restartDelay := none, listening := true }, true)
    else ({ s with restartDelay := none, listening := false, autoRestart := false }, true)

/-- The recognizer error codes the hook treats as fatal: `not-allowed` and
`service-not-allowed` are the Web Speech API permission-denied class,
`network` and `service-unavailable` the service-unavailable class
(lines 135-143). -/
def fatalErrorCodes : List String :=
  ["not-allowed", "service-not-allowed", "network", "service-unavailable"]

/-- `recognition.onerror` (lines 126-145): `no-speech` and `aborted` are
ignored entirely; any other code is surfaced as the last error; the fatal
codes additionally disable auto-restart and force `listening` off. -/
def recognitionOnError (s : CaptureState) (code : String) : CaptureState :=
  let s1 := if code = "no-speech" ∨ code = "aborted" then s
            else { s with lastError := some code }
  if code = "not-allowed" ∨ code = "service-not-allowed" ∨ code = "network" ∨
      code = "service-unavailable" then
    { s1 with autoRestart := false, listening := false }
  else s1

/-- Helper: `webRTCClose` always yields the cleared manager state. -/
theorem webRTCClose_eq (s : WebRTCManagerState) :
    webRTCClose s = { iceGatheringTimeout := none, peerConnection := none } := by
  unfold webRTCClose
  cases s with
  | mk t p =>
    cases t <;> cases p <;> simp

/-- Helper for the user half of duplicate suppression: with no matching user
message already in the log, the first delivery appends one message and an
identical delivery within the 2000 ms window leaves the log unchanged. -/
theorem addUserMessageToChat_duplicate_window (prev : List ChatMessage)
    (messageText participantId id1 id2 : String) (t1 t2 : Nat)
    (hne : jsTrim messageText ≠ "")
    (hnodup : ∀ m ∈ prev, ¬(m.text = jsTrim messageText ∧ m.sender = "user" ∧
        m.participantId = participantId))
    (horder : t1 ≤ t2) (hwin : t2 - t1 < 2000) :
    addUserMessageToChat prev messageText participantId t1 id1 =
      prev ++ [mkMessage (generateUniqueId prev id1) (jsTrim messageText) "user" t1
        participantId] ∧
    addUserMessageToChat (addUserMessageToChat prev messageText participantId t1 id1)
        messageText participantId t2 id2 =
      addUserMessageToChat prev messageText participantId t1 id1 := by
  have hany : prev.any (fun msg =>
      msg.text == jsTrim messageText && msg.sender == "user" &&
      msg.participantId == participantId &&
      decide (((t1 : Int) - (msg.timestampMs : Int)).natAbs < 2000)) = false := by
    rw [List.any_eq_false]
    intro m hm
    have := hnodup m hm
    simp only [Bool.and_eq_true, beq_iff_eq, decide_eq_true_eq, Bool.and_eq_false_iff] at *
    by_cases h1 : m.text = jsTrim messageText
    · by_cases h2 : m.sender = "user"
      · by_cases h3 : m.participantId = participantId
        · exact absurd ⟨h1, h2, h3⟩ this
        · simp [h3]
      · simp [h2]
    · simp [h1]
  have hfirst : addUserMessageToChat prev messageText participantId t1 id1 =
      prev ++ [mkMessage (generateUniqueId prev id1) (jsTrim messageText) "user" t1
        participantId] := by
    unfold addUserMessageToChat
    rw [if_neg hne]
    simp only [hany]
    simp [mkMessage]
  refine ⟨hfirst, ?_⟩
  rw [hfirst]
  unfold addUserMessageToChat
  rw [if_neg hne]
  have hany2 : (prev ++ [mkMessage (generateUniqueId prev id1) (jsTrim messageText) "user" t1
      participantId]).any (fun msg =>
      msg.text == jsTrim messageText && msg.sender == "user" &&
      msg.participantId == participantId &&
      decide (((t2 : Int) - (msg.timestampMs : Int)).natAbs < 2000)) = true := by
    rw [List.any_eq_true]
    refine ⟨mkMessage (generateUniqueId prev id1) (jsTrim messageText) "user" t1 participantId,
      by simp, ?_⟩
    simp [mkMessage]
    omega
  simp only [hany2]
  simp

/-- Helper for the agent half of duplicate suppression: a fragment that is
not a continuation of the log tail and whose text already appears as an
agent message is dropped without mutating the log. -/
theorem addAgentMessageToChat_drop_duplicate (prev : List ChatMessage)
    (messageText participantIdentity freshId : String) (isUpdate : Bool) (timestamp : Nat)
    (hlastNotAgent : ∀ lastMessage, prev.getLast? = some lastMessage →
        ¬(lastMessage.sender = "agent"))
    (hdup : ∃ m ∈ prev, m.text = jsTrim messageText ∧ m.sender = "agent" ∧
        ((timestamp : Int) - (m.timestampMs : Int)).natAbs < 2000) :
    addAgentMessageToChat prev messageText participantIdentity isUpdate timestamp freshId
      = prev := by
  obtain ⟨m, hm, htext, hsender, -⟩ := hdup
  have hanytrue : prev.any (fun msg => msg.text == jsTrim messageText && msg.sender == "agent")
      = true := by
    rw [List.any_eq_true]
    exact ⟨m, hm, by simp [htext, hsender]⟩
  have happend : appendNewAgentMessage prev (jsTrim messageText) participantIdentity timestamp
      freshId = prev := by
    unfold appendNewAgentMessage
    simp only [hanytrue]
    simp
  by_cases hne : jsTrim messageText = ""
  · unfold addAgentMessageToChat
    rw [if_pos hne]
  · unfold addAgentMessageToChat
    rw [if_neg hne]
    cases hcase : prev.getLast? with
    | none => simpa using happend
    | some lastMessage =>
      have hns : ¬(lastMessage.sender = "agent") := hlastNotAgent lastMessage hcase
      simp only [hns, if_neg hns]
      simpa using happend

/-- C1: Continuation merge — delivering the growing sequence "H", "He",
"Hel", "Hello" from the agent with no interleaved fragments yields a log
with exactly one message for that sender, whose final text is "Hello" and
whose id is the id assigned on the first fragment, for every choice of fresh
ids, timestamps and update flags. -/
theorem c1_continuation_merge (i1 i2 i3 i4 : String) (t1 t2 t3 t4 : Nat) (u1 u2 u3 u4 : Bool) :
    addAgentMessageToChat
      (addAgentMessageToChat
        (addAgentMessageToChat
          (addAgentMessageToChat [] "H" "agent" u1 t1 i1)
          "He" "agent" u2 t2 i2)
        "Hel" "agent" u3 t3 i3)
      "Hello" "agent" u4 t4 i4
    = [mkMessage i1 "Hello" "agent" t4 "agent"] := by
  rfl

/-- C2 counterexample: the agent's most recent message has text "Hel", a
non-empty exact beginning of the fragment "Hello", yet because a user
message arrived afterwards the reconciler does not update it in place but
appends a third message. -/
theorem c2_interleaved_sender_counterexample :
    strStartsWith "Hello" (jsTrim "Hel") = true ∧
    jsTrim "Hel" ≠ "" ∧
    addAgentMessageToChat
      [mkMessage "a" "Hel" "agent" 1 "agent", mkMessage "b" "Hi" "user" 2 "u"]
      "Hello" "agent" true 3 "c"
    = [mkMessage "a" "Hel" "agent" 1 "agent", mkMessage "b" "Hi" "user" 2 "u",
       mkMessage "c" "Hello" "agent" 3 "agent"] := by
  decide

/-- C2 (amended): the continuation update happens exactly when the last
message of the whole log is the agent message — if the last log entry is
from the agent and the fragment's trimmed text extends its trimmed text,
the reconciler updates that entry in place (same id, new text, new
timestamp) and appends nothing; an interleaved message from the other
sender breaks the merge. -/
theorem c2_tail_continuation_update (prev : List ChatMessage) (lastMessage : ChatMessage)
    (messageText participantIdentity freshId : String) (isUpdate : Bool) (timestamp : Nat)
    (hlast : prev.getLast? = some lastMessage)
    (hsender : lastMessage.sender = "agent")
    (hpre : strStartsWith (jsTrim messageText) (jsTrim lastMessage.text) = true)
    (hne : jsTrim messageText ≠ "") :
    addAgentMessageToChat prev messageText participantIdentity isUpdate timestamp freshId =
      prev.dropLast ++
        [{ lastMessage with text := jsTrim messageText, timestampMs := timestamp }] ∧
    (addAgentMessageToChat prev messageText participantIdentity isUpdate timestamp
        freshId).length = prev.length := by
  have hmain : addAgentMessageToChat prev messageText participantIdentity isUpdate timestamp
      freshId = prev.dropLast ++
        [{ lastMessage with text := jsTrim messageText, timestampMs := timestamp }] := by
    unfold addAgentMessageToChat
    rw [if_neg hne, hlast]
    simp only [hsender, if_pos rfl, hpre, Bool.true_or, Bool.true_and, if_pos rfl]
    simp
  refine ⟨hmain, ?_⟩
  rw [hmain]
  have hnonnil : prev ≠ [] := by
    intro h
    rw [h] at hlast
    simp at hlast
  rw [List.length_append, List.length_dropLast]
  have : 0 < prev.length := List.length_pos.mpr hnonnil
  simp
  omega

/-- C2 witness: in-place update of a single-message agent log on the
fragment "Hello" extending "Hel". -/
theorem c2_tail_continuation_update_witness :
    addAgentMessageToChat [mkMessage "a" "Hel" "agent" 1 "agent"] "Hello" "agent" false 2 "x" =
      ([mkMessage "a" "Hel" "agent" 1 "agent"]).dropLast ++
        [{ mkMessage "a" "Hel" "agent" 1 "agent" with text := jsTrim "Hello", timestampMs := 2 }] ∧
    (addAgentMessageToChat [mkMessage "a" "Hel" "agent" 1 "agent"] "Hello" "agent" false 2
        "x").length = ([mkMessage "a" "Hel" "agent" 1 "agent"]).length :=
  c2_tail_continuation_update [mkMessage "a" "Hel" "agent" 1 "agent"]
    (mkMessage "a" "Hel" "agent" 1 "agent") "Hello" "agent" "x" false 2
    (by decide) (by decide) (by decide) (by decide)

/-- C3: Duplicate suppression — (user side) a second delivery of the same
non-blank (text, participant) fragment within the 2000 ms recency window
leaves the log unchanged, so two quick deliveries produce exactly one
appended message; (agent side) a non-continuation fragment whose (sender,
text) pair already exists in the log within the recency window is dropped
without mutating the log. -/
theorem c3_duplicate_suppression :
    (∀ (prev : List ChatMessage) (messageText participantId id1 id2 : String) (t1 t2 : Nat),
       jsTrim messageText ≠ "" →
       (∀ m ∈ prev, ¬(m.text = jsTrim messageText ∧ m.sender = "user" ∧
           m.participantId = participantId)) →
       t1 ≤ t2 → t2 - t1 < 2000 →
       addUserMessageToChat prev messageText participantId t1 id1 =
         prev ++ [mkMessage (generateUniqueId prev id1) (jsTrim messageText) "user" t1
           participantId] ∧
       addUserMessageToChat (addUserMessageToChat prev messageText participantId t1 id1)
           messageText participantId t2 id2 =
         addUserMessageToChat prev messageText participantId t1 id1) ∧
    (∀ (prev : List ChatMessage) (messageText participantIdentity freshId : String)
        (isUpdate : Bool) (timestamp : Nat),
       (∀ lastMessage, prev.getLast? = some lastMessage →
           ¬(lastMessage.sender = "agent")) →
       (∃ m ∈ prev, m.text = jsTrim messageText ∧ m.sender = "agent" ∧
           ((timestamp : Int) - (m.timestampMs : Int)).natAbs < 2000) →
       addAgentMessageToChat prev messageText participantIdentity isUpdate timestamp freshId
         = prev) := by
  constructor
  · intro prev messageText participantId id1 id2 t1 t2 hne hnodup horder hwin
    exact addUserMessageToChat_duplicate_window prev messageText participantId id1 id2 t1 t2
      hne hnodup horder hwin
  · intro prev messageText participantIdentity freshId isUpdate timestamp hlast hdup
    exact addAgentMessageToChat_drop_duplicate prev messageText participantIdentity freshId
      isUpdate timestamp hlast hdup

/-- C3 witness: the user fragment "hi" delivered twice 400 ms apart appends
once, and the agent fragment "yo" repeated after a later user message is
dropped. -/
theorem c3_duplicate_suppression_witness :
    (addUserMessageToChat [] "hi" "u" 100 "a" =
       [] ++ [mkMessage (generateUniqueId [] "a") (jsTrim "hi") "user" 100 "u"] ∧
     addUserMessageToChat (addUserMessageToChat [] "hi" "u" 100 "a") "hi" "u" 500 "b" =
       addUserMessageToChat [] "hi" "u" 100 "a") ∧
    addAgentMessageToChat
      [mkMessage "a" "yo" "agent" 1 "agent", mkMessage "b" "ok" "user" 2 "u"]
      "yo" "agent" true 3 "c"
    = [mkMessage "a" "yo" "agent" 1 "agent", mkMessage "b" "ok" "user" 2 "u"] := by
  constructor
  · exact c3_duplicate_suppression.1 [] "hi" "u" "a" "b" 100 500 (by decide) (by simp)
      (by decide) (by decide)
  · exact c3_duplicate_suppression.2
      [mkMessage "a" "yo" "agent" 1 "agent", mkMessage "b" "ok" "user" 2 "u"]
      "yo" "agent" "c" true 3
      (by intro l hl; injection hl with h; subst h; decide)
      ⟨mkMessage "a" "yo" "agent" 1 "agent", by decide, by decide, by decide, by decide⟩

/-- C4 counterexample: with cursor "Hello" and update "Hello there", the
code sends "there" — the trimmed new portion — whereas
`text.substring(lastSentText.length)` is " there"; the raw suffix is not
what is sent. -/
theorem c4_untrimmed_suffix_counterexample :
    heygenForwardStep true true "Hello" "Hello there" =
      { sent := some "there", cursor := "Hello there" } ∧
    strDrop "Hello there" (strLength "Hello") = " there" ∧
    ("there" : String) ≠ " there" := by
  decide

/-- C4 (amended): with the liveness gate active and a session present, an
update equal to the cursor sends nothing; an update whose trimmed text
extends a non-empty cursor sends the TRIMMED suffix
`text.substring(lastSentText.length).trim()` (only when that trimmed form
is non-empty) and moves the cursor to the full new text; an update that
does not start with the cursor sends the full new text and replaces the
cursor with it. -/
theorem c4_forwarder_delta_step (lastSent messageText : String) :
    (jsTrim messageText = lastSent →
      heygenForwardStep true true lastSent messageText = { sent := none, cursor := lastSent }) ∧
    (jsTrim messageText ≠ lastSent → lastSent ≠ "" →
      strStartsWith (jsTrim messageText) lastSent = true →
      heygenForwardStep true true lastSent messageText =
        (if jsTrim (strDrop (jsTrim messageText) (strLength lastSent)) = ""
         then { sent := none, cursor := lastSent }
         else { sent := some (jsTrim (strDrop (jsTrim messageText) (strLength lastSent))),
                cursor := jsTrim messageText })) ∧
    (jsTrim messageText ≠ lastSent → strStartsWith (jsTrim messageText) lastSent = false →
      heygenForwardStep true true lastSent messageText =
        { sent := some (jsTrim messageText), cursor := jsTrim messageText }) := by
  refine ⟨?_, ?_, ?_⟩
  · intro heq
    simp [heygenForwardStep, heq]
  · intro hne hcur hpre
    have h1 : (jsTrim messageText == lastSent) = false := by simp [hne]
    have h2 : (lastSent == "") = false := by simp [hcur]
    simp [heygenForwardStep, h1, h2, hpre]
  · intro hne hpre
    simp [heygenForwardStep, hpre, hne]

/-- C4 witness: cursor "Hello", update "Hello there" — the delta branch
applies and the trimmed suffix "there" is sent with the cursor advanced. -/
theorem c4_forwarder_delta_step_witness :
    heygenForwardStep true true "Hello" "Hello there" =
      (if jsTrim (strDrop (jsTrim "Hello there") (strLength "Hello")) = ""
       then { sent := none, cursor := "Hello" }
       else { sent := some (jsTrim (strDrop (jsTrim "Hello there") (strLength "Hello"))),
              cursor := jsTrim "Hello there" }) :=
  (c4_forwarder_delta_step "Hello" "Hello there").2.1 (by decide) (by decide) (by decide)

/-- C5: Liveness gate — the forwarding block never produces a send while
the audio-active flag is false; the flag becomes true only on subscription
of an agent audio track, becomes false when that track ends, and becomes
false when an agent audio track is unsubscribed. -/
theorem c5_liveness_gate :
    (∀ hasSession lastSent messageText,
       (heygenForwardStep hasSession false lastSent messageText).sent = none) ∧
    (∀ active e, updateAudioActive active e = true →
       active = true ∨ ∃ kind identity, e = TrackEvent.subscribed kind identity ∧
         kind = "audio" ∧ isAgentIdentity identity = true) ∧
    (∀ active, updateAudioActive active TrackEvent.ended = false) ∧
    (∀ active identity, isAgentIdentity identity = true →
       updateAudioActive active (TrackEvent.unsubscribed "audio" identity) = false) := by
  refine ⟨?_, ?_, ?_, ?_⟩
  · intro hs ls mt
    simp [heygenForwardStep]
  · intro active e h
    cases e with
    | subscribed kind identity =>
      cases hc : (kind == "audio" && isAgentIdentity identity) with
      | false =>
        simp only [updateAudioActive, hc] at h
        simp at h
        exact Or.inl h
      | true =>
        simp only [Bool.and_eq_true, beq_iff_eq] at hc
        exact Or.inr ⟨kind, identity, rfl, hc.1, hc.2⟩
    | ended => simp [updateAudioActive] at h
    | unsubscribed kind identity =>
      cases hc : (kind == "audio" && isAgentIdentity identity) with
      | false =>
        simp only [updateAudioActive, hc] at h
        simp at h
        exact Or.inl h
      | true =>
        simp only [updateAudioActive, hc] at h
        simp at h
  · intro active
    simp [updateAudioActive]
  · intro active identity h
    simp [updateAudioActive, h]

/-- C5 witness: unsubscribing the agent's audio track clears an active
flag. -/
theorem c5_liveness_gate_witness :
    updateAudioActive true (TrackEvent.unsubscribed "audio" "agent") = false :=
  c5_liveness_gate.2.2.2 true "agent" (by decide)

/-- C6 counterexample: after the cursor reached "Hello", the unrelated
update "Goodbye" makes the forwarder transmit the full text "Goodbye",
which differs from `text.substring(lastSentText.length)` = "ye"; moreover,
an update arriving while the gate is closed leaves the cursor "Hello",
which is not a beginning of the latest text "Bye". -/
theorem c6_cursor_invariant_counterexample :
    heygenForwardStep true true "" "Hello" = { sent := some "Hello", cursor := "Hello" } ∧
    heygenForwardStep true true "Hello" "Goodbye" =
      { sent := some "Goodbye", cursor := "Goodbye" } ∧
    ("Goodbye" : String) ≠ strDrop "Goodbye" (strLength "Hello") ∧
    heygenForwardStep true false "Hello" "Bye" = { sent := none, cursor := "Hello" } ∧
    strStartsWith "Bye" "Hello" = false := by
  decide

/-- C6 (amended): whenever the forwarding block actually sends, the cursor
is set to the full trimmed text of the update — so immediately after a send
the cursor equals (hence begins) the latest reconciled agent text — and the
transmitted string is the trimmed suffix past the cursor when the text
extends a non-empty cursor, and the full trimmed text otherwise. -/
theorem c6_cursor_send_invariant (hasSession audioActive : Bool)
    (lastSent messageText m : String)
    (h : (heygenForwardStep hasSession audioActive lastSent messageText).sent = some m) :
    (heygenForwardStep hasSession audioActive lastSent messageText).cursor
      = jsTrim messageText ∧
    m = (if !(lastSent == "") && strStartsWith (jsTrim messageText) lastSent
         then jsTrim (strDrop (jsTrim messageText) (strLength lastSent))
         else jsTrim messageText) := by
  cases hgate : (hasSession && !(jsTrim messageText == lastSent) && audioActive) with
  | false => simp [heygenForwardStep, hgate] at h
  | true =>
    cases hinner : (!(lastSent == "") && strStartsWith (jsTrim messageText) lastSent) with
    | false =>
      simp [heygenForwardStep, hgate, hinner] at h ⊢
      simp [h.symm]
    | true =>
      by_cases hempty : jsTrim (strDrop (jsTrim messageText) (strLength lastSent)) = ""
      · simp [heygenForwardStep, hgate, hinner, hempty] at h
      · simp [heygenForwardStep, hgate, hinner, hempty] at h ⊢
        simp [h.symm]

/-- C6 witness: the send of "there" from cursor "Hello" on update
"Hello there" leaves the cursor equal to the full new text. -/
theorem c6_cursor_send_invariant_witness :
    (heygenForwardStep true true "Hello" "Hello there").cursor = jsTrim "Hello there" ∧
    "there" = (if !(("Hello" : String) == "") &&
          strStartsWith (jsTrim "Hello there") "Hello"
        then jsTrim (strDrop (jsTrim "Hello there") (strLength "Hello"))
        else jsTrim "Hello there") :=
  c6_cursor_send_invariant true true "Hello" "Hello there" "there" (by decide)

/-- C7: Forwarding failure rollback — when a send happened and the
`sendTask` promise rejects, the catch handler resets the cursor to the
empty string; a successful send keeps the cursor; and from an empty cursor
the next gated update sends the full trimmed current text, so the lost
chunk is re-included on the next update rather than retried immediately
(one step performs at most the single send it returns). -/
theorem c7_failure_rollback :
    (∀ hasSession audioActive lastSent messageText m,
       (heygenForwardStep hasSession audioActive lastSent messageText).sent = some m →
       applySendOutcome (heygenForwardStep hasSession audioActive lastSent messageText) false
         = "") ∧
    (∀ hasSession audioActive lastSent messageText,
       applySendOutcome (heygenForwardStep hasSession audioActive lastSent messageText) true
         = (heygenForwardStep hasSession audioActive lastSent messageText).cursor) ∧
    (∀ messageText, jsTrim messageText ≠ "" →
       heygenForwardStep true true "" messageText =
         { sent := some (jsTrim messageText), cursor := jsTrim messageText }) := by
  refine ⟨?_, ?_, ?_⟩
  · intro hs aa ls mt m h
    unfold applySendOutcome
    rw [h]
    simp
  · intro hs aa ls mt
    cases hcase : (heygenForwardStep hs aa ls mt).sent <;>
      simp [applySendOutcome, hcase]
  · intro mt hne
    simp [heygenForwardStep, hne]

/-- C7 witness: the failed send of "Hi" rolls the cursor back to empty. -/
theorem c7_failure_rollback_witness :
    applySendOutcome (heygenForwardStep true true "" "Hi") false = "" :=
  c7_failure_rollback.1 true true "" "Hi" "Hi" (by decide)

/-- C8: Teardown safety — `WebRTCManager.close` is idempotent and total
(safe on a never-started connection); after close a candidate event invokes
no callback and leaves the state unchanged; the close trace nulls the
candidate callback before closing the connection; and
`SessionManager.closeSession` without a session is a no-op and is
idempotent. -/
theorem c8_teardown_safety :
    (∀ s, webRTCClose (webRTCClose s) = webRTCClose s) ∧
    (∀ s b, fireIceCandidate (webRTCClose s) b = (webRTCClose s, false)) ∧
    (∀ s, s.peerConnection.isSome = true →
       closeActions s =
         (if s.iceGatheringTimeout.isSome then [CloseAction.clearTimeout] else []) ++
         [CloseAction.nullCandidateCallback, CloseAction.closeConnection,
          CloseAction.dropConnection]) ∧
    (∀ s, s.sessionInfo = none → closeSession s = s) ∧
    (∀ s, closeSession (closeSession s) = closeSession s) := by
  refine ⟨?_, ?_, ?_, ?_, ?_⟩
  · intro s
    rw [webRTCClose_eq, webRTCClose_eq]
  · intro s b
    rw [webRTCClose_eq]
    rfl
  · intro s h
    unfold closeActions
    rw [h]
    simp
  · intro s h
    unfold closeSession
    rw [h]
    simp
  · intro s
    unfold closeSession
    by_cases h : (s.sessionInfo.isNone || s.webRTCManager.isNone) = true
    · rw [if_pos h, if_pos h]
    · rw [if_neg h]
      simp

/-- C8 witness: the close trace of a manager holding a timeout and a live
connection, and the no-op close of a session manager without a session. -/
theorem c8_teardown_safety_witness :
    closeActions { iceGatheringTimeout := some 5, peerConnection := some { candidateCallbackSet := true } } =
      (if (Option.some 5).isSome then [CloseAction.clearTimeout] else []) ++
      [CloseAction.nullCandidateCallback, CloseAction.closeConnection,
       CloseAction.dropConnection] ∧
    closeSession { sessionInfo := none, webRTCManager := none, isConnected := true } =
      { sessionInfo := none, webRTCManager := none, isConnected := true } := by
  constructor
  · exact c8_teardown_safety.2.2.1 { iceGatheringTimeout := some 5, peerConnection := some { candidateCallbackSet := true } } (by decide)
  · exact c8_teardown_safety.2.2.2.1 { sessionInfo := none, webRTCManager := none, isConnected := true } rfl

/-- C9: Capture restart discipline — an "ended" event schedules a restart
after the fixed 300 ms backoff with `listening` unchanged exactly when
auto-restart is enabled (otherwise `listening` drops with no new schedule);
the firing restart re-invokes start and keeps `listening` true; a fatal
error (the permission-denied and service-unavailable code classes) forces
`listening` off and disables auto-restart, so a following "ended" event
schedules nothing; transient codes (`no-speech`, `aborted`) change nothing
at all. -/
theorem c9_capture_restart_discipline :
    (∀ s, s.autoRestart = true →
       recognitionOnEnd s = { s with restartDelay := some 300 } ∧
       (recognitionOnEnd s).listening = s.listening) ∧
    (∀ s, s.autoRestart = false → recognitionOnEnd s = { s with listening := false }) ∧
    (∀ s, s.restartDelay = some 300 →
       fireScheduledRestart s true =
         ({ s with restartDelay := none, listening := true }, true)) ∧
    (∀ s code, code ∈ fatalErrorCodes →
       (recognitionOnError s code).listening = false ∧
       (recognitionOnError s code).autoRestart = false ∧
       (s.restartDelay = none →
         (recognitionOnEnd (recognitionOnError s code)).restartDelay = none ∧
         (recognitionOnEnd (recognitionOnError s code)).listening = false)) ∧
    (∀ s code, code = "no-speech" ∨ code = "aborted" → recognitionOnError s code = s) := by
  refine ⟨?_, ?_, ?_, ?_, ?_⟩
  · intro s h
    simp [recognitionOnEnd, h]
  · intro s h
    simp [recognitionOnEnd, h]
  · intro s h
    simp [fireScheduledRestart, h]
  · intro s code h
    simp only [fatalErrorCodes, List.mem_cons, List.mem_singleton, List.not_mem_nil] at h
    have hfatal : (code = "not-allowed" ∨ code = "service-not-allowed" ∨ code = "network" ∨
        code = "service-unavailable") := by tauto
    have hres : recognitionOnError s code =
        { (if code = "no-speech" ∨ code = "aborted" then s
           else { s with lastError := some code }) with
          autoRestart := false, listening := false } := by
      unfold recognitionOnError
      rw [if_pos hfatal]
    constructor
    · rw [hres]
    constructor
    · rw [hres]
    · intro hnone
      rw [hres]
      by_cases ht : code = "no-speech" ∨ code = "aborted" <;>
        simp [ht, recognitionOnEnd, hnone]
  · intro s code h
    have h1 : ¬(code = "not-allowed" ∨ code = "service-not-allowed" ∨ code = "network" ∨
        code = "service-unavailable") := by
      rcases h with h | h <;> subst h <;> simp
    unfold recognitionOnError
    rw [if_pos h, if_neg h1]

/-- C9 witness: a permission-denied error in the listening state forces
listening off and disables auto-restart, and the following "ended" event
schedules no restart. -/
theorem c9_capture_restart_discipline_witness :
    (recognitionOnError { listening := true, autoRestart := true, restartDelay := none, lastError := none } "not-allowed").listening = false ∧
    (recognitionOnError { listening := true, autoRestart := true, restartDelay := none, lastError := none } "not-allowed").autoRestart = false ∧
    (({ listening := true, autoRestart := true, restartDelay := none, lastError := none } : CaptureState).restartDelay = none →
      (recognitionOnEnd (recognitionOnError { listening := true, autoRestart := true, restartDelay := none, lastError := none } "not-allowed")).restartDelay = none ∧
      (recognitionOnEnd (recognitionOnError { listening := true, autoRestart := true, restartDelay := none, lastError := none } "not-allowed")).listening = false) :=
  c9_capture_restart_discipline.2.2.2.1
    { listening := true, autoRestart := true, restartDelay := none, lastError := none }
    "not-allowed" (by decide)

/-- C10: `sendTask` (and `talkToAI`) raise "Please create a connection
first" exactly when no session info exists; the result never depends on the
`isConnected` flag; and in the state produced by `createSession` — session
info present, `isConnected` still false because `startSession` has not run —
`sendTask` succeeds and forwards (session id, text) to the rendering
service. -/
theorem c10_sendTask_precondition :
    (∀ s text, sendTask s text = Except.error "Please create a connection first" ↔
       s.sessionInfo = none) ∧
    (∀ s text b, sendTask { s with isConnected := b } text = sendTask s text) ∧
    (∀ sessionId w text,
       sendTask (createSessionState sessionId w) text = Except.ok (sessionId, text) ∧
       (createSessionState sessionId w).isConnected = false) ∧
    (∀ s aiText, talkToAI s aiText = Except.error "Please create a connection first" ↔
       s.sessionInfo = none) := by
  refine ⟨?_, ?_, ?_, ?_⟩
  · intro s text
    cases h : s.sessionInfo with
    | none => simp [sendTask, h]
    | some sid => simp [sendTask, h]
  · intro s text b
    cases h : s.sessionInfo with
    | none => simp [sendTask, h]
    | some sid => simp [sendTask, h]
  · intro sid w text
    exact ⟨rfl, rfl⟩
  · intro s aiText
    cases h : s.sessionInfo with
    | none => simp [talkToAI, h]
    | some sid =>
      simp only [talkToAI, h]
      by_cases he : aiText = ""
      · simp [he]
      · simp [he]

/-- C10 witness: with no session info the error is raised, and after
session creation `sendTask` forwards the text although `isConnected` is
still false. -/
theorem c10_sendTask_precondition_witness :
    sendTask { sessionInfo := none, webRTCManager := none, isConnected := false } "hey" =
      Except.error "Please create a connection first" ∧
    sendTask (createSessionState "s1" { iceGatheringTimeout := none, peerConnection := none })
        "hey" = Except.ok ("s1", "hey") ∧
    (createSessionState "s1" { iceGatheringTimeout := none, peerConnection := none }).isConnected = false :=
  ⟨(c10_sendTask_precondition.1 { sessionInfo := none, webRTCManager := none, isConnected := false } "hey").mpr rfl,
   c10_sendTask_precondition.2.2.1 "s1"
     { iceGatheringTimeout := none, peerConnection := none } "hey"⟩

end AvatarSync
